import Mathlib

/-!
Shallow embedding of the relay/correlation engine of the `aws_backend`
repository (`core/socket_client.py`, `core/websocket.py`,
`services/realtime_handler.py`, `db/redis_client.py`) together with proofs
about the behaviour of its operations.

Python dictionaries are embedded as association lists with string keys,
preserving insertion order (assignment to an existing key keeps its
position, a new key is appended, `del` removes the key).  Python `list`s
are Lean `List`s; `list.remove(x)` removes the first occurrence.
Asynchronous effects (socket connect/send success, reply arrival,
timeouts) are resolved by an explicit environment record, so every
function of the source becomes a deterministic Lean function of the
state, the arguments and that environment.
-/

/-- Python `dict` lookup on an insertion-ordered association list. -/
def dget {α : Type} : List (String × α) → String → Option α
  | [], _ => none
  | (k', v) :: t, k => if k' = k then some v else dget t k

/-- Python `dict` assignment: replace in place if the key exists, else append. -/
def dset {α : Type} : List (String × α) → String → α → List (String × α)
  | [], k, v => [(k, v)]
  | (k', v') :: t, k, v => if k' = k then (k, v) :: t else (k', v') :: dset t k v

/-- Python `del d[k]`: remove the key's entry. -/
def derase {α : Type} (d : List (String × α)) (k : String) : List (String × α) :=
  d.filter (fun p => p.1 != k)

/-- Python `k in d` membership test. -/
def dmem {α : Type} (d : List (String × α)) (k : String) : Bool :=
  (dget d k).isSome

theorem dget_dset_self {α : Type} (d : List (String × α)) (k : String) (v : α) :
    dget (dset d k v) k = some v := by
  induction d with
  | nil => simp [dget, dset]
  | cons p t ih =>
    obtain ⟨k', v'⟩ := p
    by_cases h : k' = k
    · simp [dget, dset, h]
    · simp [dget, dset, h, ih]

theorem dget_dset_ne {α : Type} (d : List (String × α)) (k k' : String) (v : α)
    (h : k ≠ k') : dget (dset d k v) k' = dget d k' := by
  induction d with
  | nil => simp [dget, dset, h]
  | cons p t ih =>
    obtain ⟨k₀, v₀⟩ := p
    by_cases h₀ : k₀ = k
    · subst h₀
      simp [dget, dset, h]
    · simp only [dset, h₀, if_false]
      by_cases h₁ : k₀ = k'
      · simp [dget, h₁]
      · simp [dget, h₁, ih]

theorem derase_cons {α : Type} (k₀ : String) (v₀ : α) (t : List (String × α))
    (k : String) :
    derase ((k₀, v₀) :: t) k =
      if k₀ = k then derase t k else (k₀, v₀) :: derase t k := by
  by_cases h : k₀ = k <;> simp [derase, List.filter_cons, h, bne_iff_ne]

theorem dget_derase_self {α : Type} (d : List (String × α)) (k : String) :
    dget (derase d k) k = none := by
  induction d with
  | nil => rfl
  | cons p t ih =>
    obtain ⟨k', v'⟩ := p
    rw [derase_cons]
    by_cases h : k' = k
    · rw [if_pos h]
      exact ih
    · rw [if_neg h]
      simp only [dget]
      rw [if_neg h]
      exact ih

theorem dget_derase_ne {α : Type} (d : List (String × α)) (k k' : String)
    (h : k ≠ k') : dget (derase d k) k' = dget d k' := by
  induction d with
  | nil => rfl
  | cons p t ih =>
    obtain ⟨k₀, v₀⟩ := p
    rw [derase_cons]
    by_cases h₀ : k₀ = k
    · rw [if_pos h₀, ih]
      simp only [dget]
      rw [if_neg (fun hk => h (h₀.symm.trans hk))]
    · rw [if_neg h₀]
      simp only [dget]
      by_cases h₁ : k₀ = k'
      · rw [if_pos h₁, if_pos h₁]
      · rw [if_neg h₁, if_neg h₁, ih]

theorem mem_dset {α : Type} {d : List (String × α)} {k : String} {v : α}
    {p : String × α} (h : p ∈ dset d k v) : p = (k, v) ∨ p ∈ d := by
  induction d with
  | nil => simpa [dset] using h
  | cons q t ih =>
    obtain ⟨k₀, v₀⟩ := q
    by_cases h₀ : k₀ = k
    · simp only [dset, h₀, if_true] at h
      rcases List.mem_cons.mp h with h | h
      · exact Or.inl h
      · exact Or.inr (List.mem_cons_of_mem _ h)
    · simp only [dset, h₀, if_false] at h
      rcases List.mem_cons.mp h with h | h
      · exact Or.inr (List.mem_cons.mpr (Or.inl h))
      · rcases ih h with h | h
        · exact Or.inl h
        · exact Or.inr (List.mem_cons_of_mem _ h)

theorem mem_derase {α : Type} {d : List (String × α)} {k : String}
    {p : String × α} (h : p ∈ derase d k) : p ∈ d :=
  List.mem_of_mem_filter h

theorem dget_mem {α : Type} {d : List (String × α)} {k : String} {v : α}
    (h : dget d k = some v) : (k, v) ∈ d := by
  induction d with
  | nil => simp [dget] at h
  | cons q t ih =>
    obtain ⟨k₀, v₀⟩ := q
    by_cases h₀ : k₀ = k
    · subst h₀
      simp [dget] at h
      simp [h]
    · simp only [dget, h₀, if_false] at h
      exact List.mem_cons_of_mem _ (ih h)

/-- A parsed upstream JSON frame: its transaction name and, for `LOGIN`
replies, the vendor `return_code` field. -/
structure Frame where
  trnm : String
  returnCode : Int
deriving DecidableEq, Repr

/-- Messages sent to the upstream venue through `SocketClient.send_message`,
one constructor per dict shape built in `core/socket_client.py`. -/
inductive Msg where
  | login (token : String)
  | reg (grpNo : String) (refresh : Bool) (items types : List String)
  | remove (grpNo : String) (items types : List String)
  | removeGroup (grpNo : String)
  | unreg (grpNo : String)
  | cnsrreq (seq searchType : String)
  | cnsrcnc (seq : String)
  | cnsrlst
  | echoFrame (f : Frame)
deriving DecidableEq, Repr

/-- Python exceptions which can escape the modelled functions. -/
inductive PyErr where
  | connectError
  | typeError
deriving DecidableEq, Repr

/-- Result of a Python coroutine: a normal return value or a raised
exception propagating past the function. -/
inductive PyOut (α : Type) where
  | ok (a : α)
  | exn (e : PyErr)
deriving DecidableEq, Repr

/-- Environment resolving the asynchronous effects of one operation:
whether `websockets.connect` succeeds, whether `json.dumps` succeeds,
whether `websocket.send` succeeds, whether the token-refresh branch of
`try_reconnect` is taken (over an hour since the last connect), whether
the awaited tagged reply arrives before the timeout, which frame it
carries, and whether `asyncio.wait_for` ends in a non-timeout exception. -/
structure Env where
  connectOk : Bool
  serializeOk : Bool
  sendOk : Bool
  tokenStale : Bool
  responseArrives : Bool
  responseFrame : Frame
  waitExn : Bool
deriving DecidableEq, Repr

/-- The mutable fields of `SocketClient` relevant to the claims.
`responseFutures` maps a tag to the identity of the `asyncio.Future`
stored for it (`nextFuture` is a fresh-identity counter), `registeredItems`
is the group → instrument → data-kinds registry, `registeredGroups` holds
the `cond_<seq>` realtime-condition subscriptions, `sent` records every
frame successfully written to the upstream socket, and `resolvedResults`
records each `future.set_result` performed by the receive loop. -/
structure SocketState where
  connected : Bool
  keepRunning : Bool
  token : String
  responseFutures : List (String × Nat)
  nextFuture : Nat
  registeredItems : List (String × List (String × List String))
  registeredGroups : List String
  sent : List Msg
  reconnectAttempts : Nat
  resolvedResults : List (Nat × Frame)
deriving DecidableEq, Repr

namespace SocketClient

/-- Body of `SocketClient.send_message` from the `if self.connected:`
check on (source lines 127–144): serialize, send, return `True`; on a
closed connection or any other exception set `connected = False` and
return `False`; return `False` when not connected. -/
def send_body (env : Env) (msg : Msg) (s : SocketState) : PyOut Bool × SocketState :=
  if s.connected then
    if env.serializeOk then
      if env.sendOk then
        (PyOut.ok true, { s with sent := s.sent ++ [msg] })
      else
        (PyOut.ok false, { s with connected := false })
    else
      (PyOut.ok false, { s with connected := false })
  else
    (PyOut.ok false, s)

/-- `SocketClient.connect` (source lines 78–104): open the socket, set
`connected`, reset `reconnect_attempts`, send the `LOGIN` frame through
`send_message` (the client is connected at that point, so that call is
exactly `send_body`), and start the receive loop; on failure set
`connected = False` and re-raise. -/
def connect (env : Env) (s : SocketState) : PyOut Unit × SocketState :=
  if env.connectOk then
    let s₁ := { s with connected := true, reconnectAttempts := 0 }
    (PyOut.ok (), (send_body env (Msg.login s₁.token) s₁).2)
  else
    (PyOut.exn PyErr.connectError, { s with connected := false })

/-- `SocketClient.send_message` (source lines 121–144): when not
connected it first calls `connect` — outside any `try`, so a failing
`connect` raises out of `send_message` — then runs the connected body. -/
def send_message (env : Env) (msg : Msg) (s : SocketState) : PyOut Bool × SocketState :=
  if s.connected then
    send_body env msg s
  else
    match connect env s with
    | (PyOut.exn e, s') => (PyOut.exn e, s')
    | (PyOut.ok _, s') => send_body env msg s'

/-- `SocketClient.try_reconnect` (source lines 269–296): give up past
`max_retries`, otherwise bump the attempt counter, wait, possibly refresh
the token — `self.get_token_async()` does not exist on `SocketClient`, so
a stale token raises `AttributeError`, which the surrounding `try`
swallows into `return False` — then call `connect` and report whether the
client is connected. -/
def try_reconnect (env : Env) (maxRetries : Nat) (s : SocketState) : Bool × SocketState :=
  if s.reconnectAttempts ≥ maxRetries then
    (false, s)
  else
    let s₁ := { s with reconnectAttempts := s.reconnectAttempts + 1 }
    if env.tokenStale then
      (false, s₁)
    else
      match connect env s₁ with
      | (PyOut.exn _, s₂) => (false, s₂)
      | (PyOut.ok _, s₂) => if s₂.connected then (true, s₂) else (false, s₂)

end SocketClient

/-- True for registration (`REG`) frames. -/
def isRegMsg : Msg → Bool
  | Msg.reg _ _ _ _ => true
  | _ => false

/-- True for realtime-condition request (`CNSRREQ`) frames. -/
def isCondReqMsg : Msg → Bool
  | Msg.cnsrreq _ _ => true
  | _ => false

/-- An environment in which every transport effect succeeds and the
awaited reply arrives. -/
def envOk : Env :=
  { connectOk := true, serializeOk := true, sendOk := true,
    tokenStale := false, responseArrives := true,
    responseFrame := { trnm := "CNSRLST", returnCode := 0 }, waitExn := false }

/-- A disconnected client whose registry holds group `"1"` with
instrument `"005930"` of kind `"0D"`, and one realtime-condition
subscription `cond_4`. -/
def s2cex : SocketState :=
  { connected := false, keepRunning := true, token := "tok",
    responseFutures := [], nextFuture := 0,
    registeredItems := [("1", [("005930", ["0D"])])],
    registeredGroups := ["cond_4"],
    sent := [], reconnectAttempts := 0, resolvedResults := [] }

/-- A disconnected client with an empty state, used where the registry
content is irrelevant. -/
def sDisc : SocketState :=
  { connected := false, keepRunning := true, token := "tok",
    responseFutures := [], nextFuture := 0,
    registeredItems := [], registeredGroups := [],
    sent := [], reconnectAttempts := 0, resolvedResults := [] }

/-- An environment whose connect attempt fails. -/
def envConnFail : Env :=
  { connectOk := false, serializeOk := true, sendOk := true,
    tokenStale := false, responseArrives := true,
    responseFrame := { trnm := "CNSRLST", returnCode := 0 }, waitExn := false }

/-- C2 counterexample: from a disconnected state whose registry holds
group "1" → instrument "005930" → kind "0D" and whose condition set holds
`cond_4`, a successful `try_reconnect` sends only the `LOGIN` frame — no
registration message and no realtime-condition request is replayed, so
the replay the claim requires does not happen. -/
theorem C2_counterexample :
    (SocketClient.try_reconnect envOk 5 s2cex).1 = true ∧
    s2cex.registeredItems ≠ [] ∧
    s2cex.registeredGroups ≠ [] ∧
    (SocketClient.try_reconnect envOk 5 s2cex).2.sent = [Msg.login "tok"] ∧
    ((SocketClient.try_reconnect envOk 5 s2cex).2.sent.filter isRegMsg) = [] ∧
    ((SocketClient.try_reconnect envOk 5 s2cex).2.sent.filter isCondReqMsg) = [] := by
  refine ⟨rfl, by decide, by decide, rfl, rfl, rfl⟩

/-- C2 (amended): after a successful reconnect following a disconnect the
transport re-issues the login frame and nothing else — whatever the
Subscription Registry and ConditionSubscription set contain, no
registration message and no realtime-condition request is re-sent. -/
theorem C2_reconnect_replays_nothing (env : Env) (s : SocketState)
    (hc : env.connectOk = true) (hse : env.serializeOk = true)
    (hsd : env.sendOk = true) (ht : env.tokenStale = false)
    (ha : s.reconnectAttempts < 5) :
    (SocketClient.try_reconnect env 5 s).1 = true ∧
    (SocketClient.try_reconnect env 5 s).2.sent = s.sent ++ [Msg.login s.token] := by
  have hna : ¬ s.reconnectAttempts ≥ 5 := Nat.not_le.mpr ha
  constructor <;>
    simp [SocketClient.try_reconnect, SocketClient.connect, SocketClient.send_body,
      hc, hse, hsd, ht, hna]

/-- Witness for `C2_reconnect_replays_nothing` at a concrete state. -/
theorem C2_reconnect_replays_nothing_witness :
    envOk.connectOk = true ∧ envOk.serializeOk = true ∧ envOk.sendOk = true ∧
    envOk.tokenStale = false ∧ sDisc.reconnectAttempts < 5 ∧
    ((SocketClient.try_reconnect envOk 5 sDisc).1 = true ∧
     (SocketClient.try_reconnect envOk 5 sDisc).2.sent = sDisc.sent ++ [Msg.login sDisc.token]) :=
  ⟨rfl, rfl, rfl, rfl, by decide,
    C2_reconnect_replays_nothing envOk sDisc rfl rfl rfl rfl (by decide)⟩

/-- C7 counterexample: with the client disconnected and the single
reconnect attempt failing, `send_message` raises the connect exception
out of its boundary instead of returning `False`. -/
theorem C7_counterexample :
    (SocketClient.send_message envConnFail (Msg.unreg "1") sDisc).1 =
      PyOut.exn PyErr.connectError := rfl

/-- C7 (amended): when connected, `send_message` returns `True` exactly
when serialization and the socket write both succeed and `False`
otherwise, without raising; when disconnected it attempts one `connect`:
if that connect fails the exception propagates out of `send_message`
(it does not return `False`), and if it succeeds the call behaves as in
the connected case, the login frame having been sent first when the
transport effects succeed. -/
theorem C7_send_message_spec (env : Env) (msg : Msg) (s : SocketState) :
    (s.connected = true →
      (SocketClient.send_message env msg s).1 = PyOut.ok (env.serializeOk && env.sendOk)) ∧
    (s.connected = false → env.connectOk = false →
      (SocketClient.send_message env msg s).1 = PyOut.exn PyErr.connectError) ∧
    (s.connected = false → env.connectOk = true →
      (SocketClient.send_message env msg s).1 = PyOut.ok (env.serializeOk && env.sendOk) ∧
      (env.serializeOk = true → env.sendOk = true →
        (SocketClient.send_message env msg s).2.sent = s.sent ++ [Msg.login s.token, msg])) := by
  refine ⟨fun hc => ?_, fun hc hn => ?_, fun hc hn => ?_⟩
  · cases hse : env.serializeOk <;> cases hsd : env.sendOk <;>
      simp [SocketClient.send_message, SocketClient.send_body, hc, hse, hsd]
  · simp [SocketClient.send_message, SocketClient.connect, hc, hn]
  · refine ⟨?_, fun hse hsd => ?_⟩
    · cases hse : env.serializeOk <;> cases hsd : env.sendOk <;>
        simp [SocketClient.send_message, SocketClient.connect, SocketClient.send_body,
          hc, hn, hse, hsd]
    · simp [SocketClient.send_message, SocketClient.connect, SocketClient.send_body,
        hc, hn, hse, hsd]

/-- Witness for `C7_send_message_spec` at a concrete disconnected state
with a succeeding reconnect. -/
theorem C7_send_message_spec_witness :
    sDisc.connected = false ∧ envOk.connectOk = true ∧
    (SocketClient.send_message envOk (Msg.unreg "1") sDisc).1 = PyOut.ok true ∧
    (SocketClient.send_message envOk (Msg.unreg "1") sDisc).2.sent =
      sDisc.sent ++ [Msg.login sDisc.token, Msg.unreg "1"] :=
  ⟨rfl, rfl,
    ((C7_send_message_spec envOk (Msg.unreg "1") sDisc).2.2 rfl rfl).1,
    ((C7_send_message_spec envOk (Msg.unreg "1") sDisc).2.2 rfl rfl).2 rfl rfl⟩

/-- Caller-visible result of `send_and_wait_for_response`: the awaited
reply, or one of the error dicts the source returns. -/
inductive SRes where
  | response (f : Frame)
  | errCannotConnect
  | errSendFail
  | errTimeout
  | errInternal
deriving DecidableEq, Repr

namespace SocketClient

/-- Registration phase of `send_and_wait_for_response` (source lines
156–168): create a fresh `asyncio.Future` and store it under the tag.
The plain dict assignment overwrites any future already stored for the
same tag. -/
def sawRegister (s : SocketState) (trnm : String) : Nat × SocketState :=
  (s.nextFuture,
   { s with nextFuture := s.nextFuture + 1,
            responseFutures := dset s.responseFutures trnm s.nextFuture })

/-- `SocketClient.send_and_wait_for_response` (source lines 146–198).
The initial connect attempt sits outside the `try`, so its exception
propagates; past it, every return path deletes the tag's future — on
send failure explicitly, on reply/timeout through the `finally` block,
and on any other exception through the outer `except`. -/
def send_and_wait_for_response (env : Env) (msg : Msg) (trnm : String)
    (s : SocketState) : PyOut SRes × SocketState :=
  match (if s.connected then (PyOut.ok (), s) else connect env s) with
  | (PyOut.exn e, s') => (PyOut.exn e, s')
  | (PyOut.ok _, s₀) =>
    if s₀.connected then
      let s₁ := (sawRegister s₀ trnm).2
      match send_body env msg s₁ with
      | (PyOut.ok true, s₂) =>
          if env.responseArrives then
            (PyOut.ok (SRes.response env.responseFrame),
             { s₂ with responseFutures := derase s₂.responseFutures trnm })
          else if env.waitExn then
            (PyOut.ok SRes.errInternal,
             { s₂ with responseFutures := derase s₂.responseFutures trnm })
          else
            (PyOut.ok SRes.errTimeout,
             { s₂ with responseFutures := derase s₂.responseFutures trnm })
      | (PyOut.ok false, s₂) =>
          (PyOut.ok SRes.errSendFail,
           { s₂ with responseFutures := derase s₂.responseFutures trnm })
      | (PyOut.exn _, s₂) =>
          (PyOut.ok SRes.errInternal,
           { s₂ with responseFutures := derase s₂.responseFutures trnm })
    else
      (PyOut.ok SRes.errCannotConnect, s₀)

end SocketClient

/-- A connected client whose pending table holds a `CNSRREQ` future with
identity `0` — the situation of a first `send_and_wait_for_response`
call suspended at its wait point. -/
def s1cex : SocketState :=
  { connected := true, keepRunning := true, token := "tok",
    responseFutures := [("CNSRREQ", 0)], nextFuture := 1,
    registeredItems := [], registeredGroups := [],
    sent := [], reconnectAttempts := 0, resolvedResults := [] }

/-- A connected client with an empty pending table. -/
def sConn : SocketState :=
  { connected := true, keepRunning := true, token := "tok",
    responseFutures := [], nextFuture := 0,
    registeredItems := [], registeredGroups := [],
    sent := [], reconnectAttempts := 0, resolvedResults := [] }

/-- C1 counterexample: with a `CNSRREQ` future already pending, a second
`send_and_wait_for_response` for the same tag does not fail with a
duplicate-tag error — it completes normally with the reply — and its
registration step replaces the first call's future (identity `0`) by its
own (identity `1`) in the pending table. -/
theorem C1_counterexample :
    dget s1cex.responseFutures "CNSRREQ" = some 0 ∧
    (SocketClient.send_and_wait_for_response envOk (Msg.cnsrreq "4" "1") "CNSRREQ" s1cex).1 =
      PyOut.ok (SRes.response envOk.responseFrame) ∧
    (SocketClient.sawRegister s1cex "CNSRREQ").2.responseFutures = [("CNSRREQ", 1)] := by
  refine ⟨rfl, rfl, rfl⟩

/-- C1 (amended): a second `send_and_wait_for_response` with a tag whose
future is still pending does not fail fast; it silently overwrites the
first call's future with a fresh one (so the first call's completion
handle is no longer in the table and the first caller can only time
out), and the second call itself receives the tagged reply. -/
theorem C1_duplicate_tag_overwrites (env : Env) (msg : Msg) (trnm : String)
    (s : SocketState) (f₀ : Nat)
    (hp : dget s.responseFutures trnm = some f₀)
    (hfresh : ∀ p ∈ s.responseFutures, p.2 < s.nextFuture)
    (hc : s.connected = true) (hse : env.serializeOk = true)
    (hsd : env.sendOk = true) (hra : env.responseArrives = true) :
    (SocketClient.send_and_wait_for_response env msg trnm s).1 =
      PyOut.ok (SRes.response env.responseFrame) ∧
    dget (SocketClient.sawRegister s trnm).2.responseFutures trnm = some s.nextFuture ∧
    s.nextFuture ≠ f₀ := by
  refine ⟨?_, ?_, ?_⟩
  · simp [SocketClient.send_and_wait_for_response, SocketClient.sawRegister,
      SocketClient.send_body, hc, hse, hsd, hra]
  · simp [SocketClient.sawRegister, dget_dset_self]
  · exact ne_of_gt (hfresh (trnm, f₀) (dget_mem hp))

/-- Witness for `C1_duplicate_tag_overwrites` at the concrete state
`s1cex`. -/
theorem C1_duplicate_tag_overwrites_witness :
    dget s1cex.responseFutures "CNSRREQ" = some 0 ∧
    s1cex.connected = true ∧
    ((SocketClient.send_and_wait_for_response envOk (Msg.cnsrcnc "4") "CNSRREQ" s1cex).1 =
        PyOut.ok (SRes.response envOk.responseFrame) ∧
      dget (SocketClient.sawRegister s1cex "CNSRREQ").2.responseFutures "CNSRREQ" = some 1 ∧
      s1cex.nextFuture ≠ 0) :=
  ⟨rfl, rfl,
    C1_duplicate_tag_overwrites envOk (Msg.cnsrcnc "4") "CNSRREQ" s1cex 0 rfl
      (by decide) rfl rfl rfl rfl⟩

/-- C10: on every return path of `send_and_wait_for_response` that got
past registering its future — reply received, send failure, timeout, or
an internal exception caught by the outer handler — the pending-futures
table of the resulting state holds no entry for the call's tag. -/
theorem C10_no_pending_entry_after_return (env : Env) (msg : Msg) (trnm : String)
    (s : SocketState) (r : SRes)
    (h : (SocketClient.send_and_wait_for_response env msg trnm s).1 = PyOut.ok r)
    (hr : r ≠ SRes.errCannotConnect) :
    dget (SocketClient.send_and_wait_for_response env msg trnm s).2.responseFutures trnm = none := by
  cases hc : s.connected <;> cases hk : env.connectOk <;>
    cases hse : env.serializeOk <;> cases hsd : env.sendOk <;>
    cases hra : env.responseArrives <;> cases hwe : env.waitExn <;>
    simp [SocketClient.send_and_wait_for_response, SocketClient.connect,
      SocketClient.send_body, SocketClient.sawRegister,
      hc, hk, hse, hsd, hra, hwe, dget_derase_self] at h ⊢ <;>
    simp [h] at hr

/-- Witness for `C10_no_pending_entry_after_return` at the connected
state `sConn`. -/
theorem C10_no_pending_entry_after_return_witness :
    (SocketClient.send_and_wait_for_response envOk Msg.cnsrlst "CNSRLST" sConn).1 =
      PyOut.ok (SRes.response envOk.responseFrame) ∧
    dget (SocketClient.send_and_wait_for_response envOk Msg.cnsrlst "CNSRLST" sConn).2.responseFutures
        "CNSRLST" = none :=
  ⟨rfl,
    C10_no_pending_entry_after_return envOk Msg.cnsrlst "CNSRLST" sConn
      (SRes.response envOk.responseFrame) rfl (by decide)⟩

/-- How one receive-loop iteration classified a frame. -/
inductive Route where
  | pong
  | futureResolved (fid : Nat)
  | loginSuccess
  | loginFailure
  | pushedToHandler
  | otherLogged
  | noHandler
deriving DecidableEq, Repr

namespace SocketClient

/-- Classification performed by one iteration of
`SocketClient.receive_messages` on a parsed frame (source lines
217–254): `PING` is echoed back through `send_message`; then a tag
matching a pending future resolves it (`set_result`, recorded in
`resolvedResults`); then a `LOGIN` frame with non-zero `return_code`
forces `disconnect`; everything else goes to the realtime handler only
when its tag is `REAL` — any other unmatched frame is merely logged. -/
def receive_step (env : Env) (hasHandler : Bool) (f : Frame) (s : SocketState) :
    Route × SocketState :=
  if f.trnm = "PING" then
    (Route.pong, (send_message env (Msg.echoFrame f) s).2)
  else
    match dget s.responseFutures f.trnm with
    | some fid =>
        (Route.futureResolved fid,
         { s with resolvedResults := s.resolvedResults ++ [(fid, f)] })
    | none =>
      if f.trnm = "LOGIN" then
        if f.returnCode ≠ 0 then
          (Route.loginFailure, { s with keepRunning := false, connected := false })
        else
          (Route.loginSuccess, s)
      else if hasHandler then
        if f.trnm = "REAL" then
          (Route.pushedToHandler, s)
        else
          (Route.otherLogged, s)
      else
        (Route.noHandler, s)

end SocketClient

/-- C3 counterexample: a reply frame tagged `CNSRLST` arriving with no
pending future for that tag, with the realtime handler installed, is
classified as "other message, log only" — it is not forwarded to the
Push Dispatcher. -/
theorem C3_counterexample :
    dget sConn.responseFutures "CNSRLST" = none ∧
    (SocketClient.receive_step envOk true { trnm := "CNSRLST", returnCode := 0 } sConn).1 =
      Route.otherLogged ∧
    (SocketClient.receive_step envOk true { trnm := "CNSRLST", returnCode := 0 } sConn).1 ≠
      Route.pushedToHandler := by
  refine ⟨rfl, rfl, by decide⟩

/-- C3 (amended): an incoming frame whose tag is not the heartbeat,
matches no pending future and is not the login tag is forwarded to the
Push Dispatcher exactly when its tag is `REAL`; with any other tag it is
only logged and is dropped. -/
theorem C3_unmatched_frame_routing (env : Env) (f : Frame) (s : SocketState)
    (h₁ : f.trnm ≠ "PING") (h₂ : dget s.responseFutures f.trnm = none)
    (h₃ : f.trnm ≠ "LOGIN") :
    (SocketClient.receive_step env true f s).1 =
      (if f.trnm = "REAL" then Route.pushedToHandler else Route.otherLogged) := by
  by_cases hr : f.trnm = "REAL"
  · rw [hr] at h₂
    simp [SocketClient.receive_step, h₁, h₂, h₃, hr]
  · simp [SocketClient.receive_step, h₁, h₂, h₃, hr]

/-- Witness for `C3_unmatched_frame_routing` on a `REAL` push frame. -/
theorem C3_unmatched_frame_routing_witness :
    dget sConn.responseFutures "REAL" = none ∧
    (SocketClient.receive_step envOk true { trnm := "REAL", returnCode := 0 } sConn).1 =
      Route.pushedToHandler :=
  ⟨rfl,
    (C3_unmatched_frame_routing envOk { trnm := "REAL", returnCode := 0 } sConn
      (by decide) rfl (by decide)).trans (by decide)⟩

/-- The nested recording loops shared by `register_real_data` (source
lines 312–319) and `subscribe_realtime_price` (lines 597–604): ensure
each item has an entry, then append each type not already recorded. -/
def addItemsTypes (g : List (String × List String)) (items types : List String) :
    List (String × List String) :=
  items.foldl
    (fun g item =>
      dset g item
        (types.foldl (fun ts t => if ts.contains t then ts else ts ++ [t])
          ((dget g item).getD [])))
    g

/-- One iteration of the removal loop shared by `remove_items_from_group`
(source lines 341–350) and `unsubscribe_realtime_price` (lines 786–794):
for a recorded item, remove each listed type, and delete the item
entirely once no type remains. -/
def removeTypesStep (types : List String) (g : List (String × List String))
    (item : String) : List (String × List String) :=
  match dget g item with
  | none => g
  | some ts =>
      let ts₁ := types.foldl (fun ts t => ts.erase t) ts
      if ts₁.isEmpty then derase g item else dset g item ts₁

/-- The full removal loop over a list of items. -/
def removeItemsTypes (g : List (String × List String)) (items types : List String) :
    List (String × List String) :=
  items.foldl (removeTypesStep types) g

/-- Registry transformation performed by `register_real_data`, as a pure
function of the previous registry. -/
def registerUpdate (reg : List (String × List (String × List String)))
    (groupNo : String) (items types : List String) (refresh : Bool) :
    List (String × List (String × List String)) :=
  let reg₁ := if refresh then dset reg groupNo []
              else if dmem reg groupNo then reg else dset reg groupNo []
  dset reg₁ groupNo (addItemsTypes ((dget reg₁ groupNo).getD []) items types)

/-- Registry transformation performed by `remove_items_from_group`, as a
pure function of the previous registry. -/
def removeUpdate (reg : List (String × List (String × List String)))
    (groupNo : String) (items types : List String) :
    List (String × List (String × List String)) :=
  match dget reg groupNo with
  | none => reg
  | some g => dset reg groupNo (removeItemsTypes g items types)

/-- Registry transformation performed by `subscribe_realtime_price`:
the pre-send touch whose condition is inverted (`if not refresh:` clears
the group, source line 575), the post-send touch (`if refresh:` clears,
line 589), then the recording loops. -/
def subscribeUpdate (reg : List (String × List (String × List String)))
    (groupNo : String) (items dataTypes : List String) (refresh : Bool) :
    List (String × List (String × List String)) :=
  let reg₁ := if !refresh then dset reg groupNo []
              else if dmem reg groupNo then reg else dset reg groupNo []
  let reg₂ := if refresh then dset reg₁ groupNo []
              else if dmem reg₁ groupNo then reg₁ else dset reg₁ groupNo []
  dset reg₂ groupNo (addItemsTypes ((dget reg₂ groupNo).getD []) items dataTypes)

namespace SocketClient

/-- `SocketClient.register_real_data` (source lines 299–333): update the
tracking dictionary first, then issue the `REG` frame and return the send
result. -/
def register_real_data (env : Env) (groupNo : String) (items types : List String)
    (refresh : Bool) (s : SocketState) : PyOut Bool × SocketState :=
  send_message env (Msg.reg groupNo refresh items types)
    { s with registeredItems := registerUpdate s.registeredItems groupNo items types refresh }

/-- `SocketClient.remove_items_from_group` (source lines 336–363): update
the tracking dictionary first — pruning an item left with no types, but
never pruning the group itself — then issue the `REMOVE` frame. -/
def remove_items_from_group (env : Env) (groupNo : String) (items types : List String)
    (s : SocketState) : PyOut Bool × SocketState :=
  send_message env (Msg.remove groupNo items types)
    { s with registeredItems := removeUpdate s.registeredItems groupNo items types }

/-- `SocketClient.unregister_group` (source lines 366–381): delete the
group from the tracking dictionary, then issue the `UNREG` frame. -/
def unregister_group (env : Env) (groupNo : String) (s : SocketState) :
    PyOut Bool × SocketState :=
  send_message env (Msg.unreg groupNo)
    { s with registeredItems := derase s.registeredItems groupNo }

end SocketClient

/-- Caller-visible result of `subscribe_realtime_price`. -/
inductive SubRes where
  | errNotConnected
  | success (groupNo : String) (items types : List String)
  | errRequestFailed
  | errException
deriving DecidableEq, Repr

/-- Caller-visible result of `unsubscribe_realtime_price`. -/
inductive URes where
  | errNotConnected
  | warnNoGroup
  | errNoItems
  | warnUnregisteredItems (invalid : List String)
  | warnUnregisteredTypes (item : String) (invalid : List String)
  | successAll (groupNo : String)
  | success (groupNo : String) (items types : List String)
  | errRequestFailed
  | errException
deriving DecidableEq, Repr

namespace SocketClient

/-- `SocketClient.subscribe_realtime_price` (source lines 539–619).
Both registry touches around the send clear or keep the group map, with
conditions inverted between them (`if not refresh:` clears before the
send, `if refresh:` clears after), so the pair nets out to a clear for
either value of `refresh`; the overall registry effect is
`subscribeUpdate`, applied unconditionally around the send. -/
def subscribe_realtime_price (env : Env) (groupNo : String)
    (items dataTypes : List String) (refresh : Bool) (s : SocketState) :
    SubRes × SocketState :=
  if s.connected then
    let reg₁ := if !refresh then dset s.registeredItems groupNo []
                else if dmem s.registeredItems groupNo then s.registeredItems
                else dset s.registeredItems groupNo []
    match send_message env (Msg.reg groupNo refresh items dataTypes)
        { s with registeredItems := reg₁ } with
    | (PyOut.exn _, s₂) => (SubRes.errException, s₂)
    | (PyOut.ok result, s₂) =>
        let reg₂ := if refresh then dset s₂.registeredItems groupNo []
                    else if dmem s₂.registeredItems groupNo then s₂.registeredItems
                    else dset s₂.registeredItems groupNo []
        let reg₃ := dset reg₂ groupNo
          (addItemsTypes ((dget reg₂ groupNo).getD []) items dataTypes)
        let s₃ := { s₂ with registeredItems := reg₃ }
        if result then (SubRes.success groupNo items dataTypes, s₃)
        else (SubRes.errRequestFailed, s₃)
  else
    (SubRes.errNotConnected, s)

/-- First item of `items` carrying a type not recorded for it, with the
offending types — the validation loop of source lines 761–768. -/
def firstInvalidTypes (g : List (String × List String)) :
    List String → List String → Option (String × List String)
  | [], _ => none
  | item :: rest, ts =>
      let bad := ts.filter (fun t => !(((dget g item).getD []).contains t))
      if bad.isEmpty then firstInvalidTypes g rest ts else some (item, bad)

/-- Send-and-commit phase of the itemized branch of
`unsubscribe_realtime_price` (source lines 770–808): issue the `REMOVE`
frame, and only if the send reported success run the removal loop,
pruning the group when its map becomes empty. -/
def unsub_send_commit (env : Env) (groupNo : String) (itemsL tys : List String)
    (s : SocketState) : URes × SocketState :=
  match send_message env (Msg.remove groupNo itemsL tys) s with
  | (PyOut.ok true, s₂) =>
      let g₂ := removeItemsTypes ((dget s₂.registeredItems groupNo).getD []) itemsL tys
      let reg := if g₂.isEmpty then derase s₂.registeredItems groupNo
                 else dset s₂.registeredItems groupNo g₂
      (URes.success groupNo itemsL tys, { s₂ with registeredItems := reg })
  | (PyOut.ok false, s₂) => (URes.errRequestFailed, s₂)
  | (PyOut.exn _, s₂) => (URes.errException, s₂)

/-- `SocketClient.unsubscribe_realtime_price` (source lines 681–812).
With `items` and `dataTypes` both `None` the whole group is removed —
but only from the registry when the wire send succeeded; otherwise the
itemized branch validates items and types, sends, and commits the
removal only on send success.  When `dataTypes` is `None` the union of
the items' recorded types is used (the source materializes it from a
Python `set`; it is modelled in first-seen order, which no claim
distinguishes). -/
def unsubscribe_realtime_price (env : Env) (groupNo : String)
    (items dataTypes : Option (List String)) (s : SocketState) : URes × SocketState :=
  if s.connected then
    if dmem s.registeredItems groupNo then
      match items, dataTypes with
      | none, none =>
          match send_message env (Msg.removeGroup groupNo) s with
          | (PyOut.ok true, s₂) =>
              (URes.successAll groupNo,
               { s₂ with registeredItems := derase s₂.registeredItems groupNo })
          | (PyOut.ok false, s₂) => (URes.errRequestFailed, s₂)
          | (PyOut.exn _, s₂) => (URes.errException, s₂)
      | items, dataTypes =>
          let itemsL := items.getD []
          if itemsL.isEmpty then (URes.errNoItems, s)
          else
            let g := (dget s.registeredItems groupNo).getD []
            let invalidItems := itemsL.filter (fun i => !(dmem g i))
            if !invalidItems.isEmpty then (URes.warnUnregisteredItems invalidItems, s)
            else
              match dataTypes with
              | none =>
                  let allTypes := itemsL.foldl
                    (fun acc item =>
                      ((dget g item).getD []).foldl
                        (fun acc t => if acc.contains t then acc else acc ++ [t]) acc)
                    []
                  unsub_send_commit env groupNo itemsL allTypes s
              | some tys =>
                  match firstInvalidTypes g itemsL tys with
                  | some (item, bad) => (URes.warnUnregisteredTypes item bad, s)
                  | none => unsub_send_commit env groupNo itemsL tys s
    else
      (URes.warnNoGroup, s)
  else
    (URes.errNotConnected, s)

end SocketClient

theorem send_message_registeredItems (env : Env) (msg : Msg) (s : SocketState) :
    (SocketClient.send_message env msg s).2.registeredItems = s.registeredItems := by
  cases hc : s.connected <;> cases hk : env.connectOk <;>
    cases hse : env.serializeOk <;> cases hsd : env.sendOk <;>
    simp [SocketClient.send_message, SocketClient.send_body, SocketClient.connect,
      hc, hk, hse, hsd]

/-- A connected client whose registry holds group "1" with instrument
"005930" of kind "0D". -/
def s4cex : SocketState :=
  { connected := true, keepRunning := true, token := "tok",
    responseFutures := [], nextFuture := 0,
    registeredItems := [("1", [("005930", ["0D"])])],
    registeredGroups := [],
    sent := [], reconnectAttempts := 0, resolvedResults := [] }

/-- An environment whose socket write fails. -/
def envSendFail : Env :=
  { connectOk := true, serializeOk := true, sendOk := false,
    tokenStale := false, responseArrives := true,
    responseFrame := { trnm := "CNSRLST", returnCode := 0 }, waitExn := false }

/-- C4 counterexample: `unsubscribe_realtime_price` with a failing wire
send leaves the registry un-updated — group "1" is still present —
contradicting the claim that every mutating operation updates the
registry regardless of the send result. -/
theorem C4_counterexample :
    (SocketClient.unsubscribe_realtime_price envSendFail "1" none none s4cex).1 =
      URes.errRequestFailed ∧
    (SocketClient.unsubscribe_realtime_price envSendFail "1" none none s4cex).2.registeredItems =
      s4cex.registeredItems ∧
    dmem s4cex.registeredItems "1" = true := by
  refine ⟨rfl, rfl, rfl⟩

/-- C4 (amended): `register_real_data`, `remove_items_from_group`,
`unregister_group` and `subscribe_realtime_price` update the registry to
the post-state unconditionally, whatever the transport does; but
`unsubscribe_realtime_price` (here its whole-group branch) commits the
registry change only when the wire send succeeds, leaving the registry
un-updated on a failed send. -/
theorem C4_registry_update_policy (env : Env) (g : String)
    (items types : List String) (refresh : Bool) (s : SocketState) :
    ((SocketClient.register_real_data env g items types refresh s).2.registeredItems
      = registerUpdate s.registeredItems g items types refresh) ∧
    ((SocketClient.remove_items_from_group env g items types s).2.registeredItems
      = removeUpdate s.registeredItems g items types) ∧
    ((SocketClient.unregister_group env g s).2.registeredItems
      = derase s.registeredItems g) ∧
    (s.connected = true →
      (SocketClient.subscribe_realtime_price env g items types refresh s).2.registeredItems
        = subscribeUpdate s.registeredItems g items types refresh) ∧
    (s.connected = true → dmem s.registeredItems g = true →
      (SocketClient.unsubscribe_realtime_price env g none none s).2.registeredItems
        = (if env.serializeOk && env.sendOk then derase s.registeredItems g
           else s.registeredItems)) := by
  refine ⟨?_, ?_, ?_, fun hc => ?_, fun hc hg => ?_⟩
  · exact send_message_registeredItems env _ _
  · exact send_message_registeredItems env _ _
  · exact send_message_registeredItems env _ _
  · cases hse : env.serializeOk <;> cases hsd : env.sendOk <;>
      simp [SocketClient.subscribe_realtime_price, subscribeUpdate,
        SocketClient.send_message, SocketClient.send_body, hc, hse, hsd]
  · cases hse : env.serializeOk <;> cases hsd : env.sendOk <;>
      simp [SocketClient.unsubscribe_realtime_price, SocketClient.send_message,
        SocketClient.send_body, hc, hg, hse, hsd]

/-- Witness for `C4_registry_update_policy` at a concrete connected state
with a successful send. -/
theorem C4_registry_update_policy_witness :
    s4cex.connected = true ∧ dmem s4cex.registeredItems "1" = true ∧
    (SocketClient.unsubscribe_realtime_price envOk "1" none none s4cex).2.registeredItems =
      (if envOk.serializeOk && envOk.sendOk then derase s4cex.registeredItems "1"
       else s4cex.registeredItems) :=
  ⟨rfl, rfl,
    (C4_registry_update_policy envOk "1" [] [] true s4cex).2.2.2.2 rfl rfl⟩

/-- C5: evaluation of the source at the claim's own scenario.
Subscribing group "1" to "005930"/"0D" with `refresh=true` yields exactly
that registry entry, but the second subscription of "000660" with
`refresh=false` — which the function's docstring says adds to the
existing registrations — clears the group first (the inverted
`if not refresh:` at source line 575), so "005930" is lost instead of
both instruments being present. -/
theorem C5_refresh_false_clears_group :
    (SocketClient.subscribe_realtime_price envOk "1" ["005930"] ["0D"] true sConn).2.registeredItems
      = [("1", [("005930", ["0D"])])] ∧
    (SocketClient.subscribe_realtime_price envOk "1" ["000660"] ["0D"] false
        (SocketClient.subscribe_realtime_price envOk "1" ["005930"] ["0D"] true sConn).2).2.registeredItems
      = [("1", [("000660", ["0D"])])] := by
  refine ⟨rfl, rfl⟩

/-- No instrument entry of a group map carries an empty kind list. -/
abbrev noEmptyKinds (g : List (String × List String)) : Prop :=
  ∀ p ∈ g, p.2 ≠ []

/-- No group entry is empty and no instrument entry carries an empty
kind list — the pruning invariant the claim asserts. -/
abbrev prunedRegistry (reg : List (String × List (String × List String))) : Prop :=
  ∀ q ∈ reg, q.2 ≠ [] ∧ noEmptyKinds q.2

theorem noEmptyKinds_removeTypesStep (types : List String)
    (g : List (String × List String)) (item : String) (h : noEmptyKinds g) :
    noEmptyKinds (removeTypesStep types g item) := by
  unfold removeTypesStep
  cases hg : dget g item with
  | none => exact h
  | some ts =>
    simp only []
    by_cases he : (List.foldl (fun ts t => ts.erase t) ts types).isEmpty
    · rw [if_pos he]
      intro p hp
      exact h p (mem_derase hp)
    · rw [if_neg he]
      intro p hp
      rcases mem_dset hp with hp | hp
      · subst hp
        simpa [List.isEmpty_iff] using he
      · exact h p hp

theorem noEmptyKinds_removeItemsTypes (items types : List String) :
    ∀ g, noEmptyKinds g → noEmptyKinds (removeItemsTypes g items types) := by
  induction items with
  | nil => intro g h; exact h
  | cons item rest ih =>
    intro g h
    have hfold : removeItemsTypes g (item :: rest) types
        = removeItemsTypes (removeTypesStep types g item) rest types := rfl
    rw [hfold]
    exact ih _ (noEmptyKinds_removeTypesStep types g item h)

theorem unsub_send_commit_registry (env : Env) (g : String)
    (itemsL tys : List String) (s : SocketState) :
    (SocketClient.unsub_send_commit env g itemsL tys s).2.registeredItems
      = s.registeredItems ∨
    (SocketClient.unsub_send_commit env g itemsL tys s).2.registeredItems
      = (if (removeItemsTypes ((dget s.registeredItems g).getD []) itemsL tys).isEmpty
         then derase s.registeredItems g
         else dset s.registeredItems g
           (removeItemsTypes ((dget s.registeredItems g).getD []) itemsL tys)) := by
  cases hc : s.connected <;> cases hk : env.connectOk <;>
    cases hse : env.serializeOk <;> cases hsd : env.sendOk <;>
    simp [SocketClient.unsub_send_commit, SocketClient.send_message,
      SocketClient.send_body, SocketClient.connect, hc, hk, hse, hsd]

theorem unsubscribe_registry_shapes (env : Env) (g : String)
    (items' dataTypes' : Option (List String)) (s : SocketState) :
    (SocketClient.unsubscribe_realtime_price env g items' dataTypes' s).2.registeredItems
      = s.registeredItems ∨
    (SocketClient.unsubscribe_realtime_price env g items' dataTypes' s).2.registeredItems
      = derase s.registeredItems g ∨
    ∃ itemsL tys,
      (SocketClient.unsubscribe_realtime_price env g items' dataTypes' s).2.registeredItems
        = (if (removeItemsTypes ((dget s.registeredItems g).getD []) itemsL tys).isEmpty
           then derase s.registeredItems g
           else dset s.registeredItems g
             (removeItemsTypes ((dget s.registeredItems g).getD []) itemsL tys)) := by
  cases hc : s.connected
  · left
    simp [SocketClient.unsubscribe_realtime_price, hc]
  · cases hdm : dmem s.registeredItems g
    · left
      simp [SocketClient.unsubscribe_realtime_price, hc, hdm]
    · cases items' with
      | none =>
        cases dataTypes' with
        | none =>
          cases hk : env.connectOk <;> cases hse : env.serializeOk <;>
            cases hsd : env.sendOk <;>
            simp [SocketClient.unsubscribe_realtime_price, SocketClient.send_message,
              SocketClient.send_body, SocketClient.connect, hc, hdm, hk, hse, hsd]
        | some tys =>
          left
          simp [SocketClient.unsubscribe_realtime_price, hc, hdm]
      | some itemsL =>
        cases hni : itemsL.isEmpty
        · by_cases hinv :
            (itemsL.filter
              (fun i => !(dmem ((dget s.registeredItems g).getD []) i))).isEmpty
          · cases dataTypes' with
            | none =>
              rcases unsub_send_commit_registry env g itemsL
                  (itemsL.foldl
                    (fun acc item =>
                      ((dget ((dget s.registeredItems g).getD []) item).getD []).foldl
                        (fun acc t => if acc.contains t then acc else acc ++ [t]) acc)
                    []) s with hcom | hcom
              · left
                simpa [SocketClient.unsubscribe_realtime_price, hc, hdm, hni, hinv]
                  using hcom
              · right; right
                refine ⟨itemsL,
                  itemsL.foldl
                    (fun acc item =>
                      ((dget ((dget s.registeredItems g).getD []) item).getD []).foldl
                        (fun acc t => if acc.contains t then acc else acc ++ [t]) acc)
                    [], ?_⟩
                simpa [SocketClient.unsubscribe_realtime_price, hc, hdm, hni, hinv]
                  using hcom
            | some tys =>
              cases hft : SocketClient.firstInvalidTypes
                  ((dget s.registeredItems g).getD []) itemsL tys with
              | none =>
                rcases unsub_send_commit_registry env g itemsL tys s with hcom | hcom
                · left
                  simpa [SocketClient.unsubscribe_realtime_price, hc, hdm, hni, hinv, hft]
                    using hcom
                · right; right
                  refine ⟨itemsL, tys, ?_⟩
                  simpa [SocketClient.unsubscribe_realtime_price, hc, hdm, hni, hinv, hft]
                    using hcom
              | some bad =>
                left
                simp [SocketClient.unsubscribe_realtime_price, hc, hdm, hni, hinv, hft]
          · left
            simp [SocketClient.unsubscribe_realtime_price, hc, hdm, hni, hinv]
        · left
          simp [SocketClient.unsubscribe_realtime_price, hc, hdm, hni]

/-- C6 counterexample: removing the last instrument's last kind through
`remove_items_from_group` leaves group "1" present with an empty
instrument map — the group is not pruned. -/
theorem C6_counterexample :
    (SocketClient.remove_items_from_group envOk "1" ["005930"] ["0D"] s4cex).2.registeredItems
      = [("1", [])] ∧
    dget (SocketClient.remove_items_from_group envOk "1" ["005930"] ["0D"] s4cex).2.registeredItems "1"
      = some [] := by
  refine ⟨rfl, rfl⟩

/-- C6 (amended): instrument-level pruning always holds — neither
`remove_items_from_group` nor `unsubscribe_realtime_price` ever leaves an
instrument entry with an empty kind list — and `unsubscribe_realtime_price`
also prunes a group left empty; but `remove_items_from_group` retains the
group entry itself even when its instrument map becomes empty, so only
the unsubscribe path maintains the full group-pruning invariant. -/
theorem C6_pruning_policy (env : Env) (g : String) (items types : List String)
    (items' dataTypes' : Option (List String)) (s : SocketState) :
    ((∀ q ∈ s.registeredItems, noEmptyKinds q.2) →
      ∀ q ∈ (SocketClient.remove_items_from_group env g items types s).2.registeredItems,
        noEmptyKinds q.2) ∧
    (prunedRegistry s.registeredItems →
      prunedRegistry
        (SocketClient.unsubscribe_realtime_price env g items' dataTypes' s).2.registeredItems) := by
  constructor
  · intro hin
    have hreg :
        (SocketClient.remove_items_from_group env g items types s).2.registeredItems
          = removeUpdate s.registeredItems g items types :=
      send_message_registeredItems env _ _
    rw [hreg]
    unfold removeUpdate
    cases hdg : dget s.registeredItems g with
    | none => exact hin
    | some gm =>
      intro q hq
      rcases mem_dset hq with hq | hq
      · subst hq
        exact noEmptyKinds_removeItemsTypes items types gm (hin (g, gm) (dget_mem hdg))
      · exact hin q hq
  · intro hpr
    rcases unsubscribe_registry_shapes env g items' dataTypes' s with h | h | ⟨L, T, h⟩
    · rw [h]; exact hpr
    · rw [h]
      intro q hq
      exact hpr q (mem_derase hq)
    · by_cases he :
        (removeItemsTypes ((dget s.registeredItems g).getD []) L T).isEmpty
      · rw [if_pos he] at h
        rw [h]
        intro q hq
        exact hpr q (mem_derase hq)
      · rw [if_neg he] at h
        rw [h]
        intro q hq
        rcases mem_dset hq with hq | hq
        · subst hq
          refine ⟨by simpa [List.isEmpty_iff] using he, ?_⟩
          have hg : noEmptyKinds ((dget s.registeredItems g).getD []) := by
            cases hdg : dget s.registeredItems g with
            | none => intro p hp; simp at hp
            | some gm =>
              simpa using (hpr (g, gm) (dget_mem hdg)).2
          exact noEmptyKinds_removeItemsTypes L T _ hg
        · exact hpr q hq

/-- Witness for `C6_pruning_policy` at a concrete registry, exercising
the group-pruning unsubscribe path. -/
theorem C6_pruning_policy_witness :
    prunedRegistry s4cex.registeredItems ∧
    prunedRegistry
      (SocketClient.unsubscribe_realtime_price envOk "1" (some ["005930"]) none s4cex).2.registeredItems :=
  ⟨by decide,
    (C6_pruning_policy envOk "1" [] [] (some ["005930"]) none s4cex).2 (by decide)⟩

/-- One element of a `REAL` push frame's `data` list
(`services/realtime_handler.py`). -/
structure RItem where
  type : String
  item : String
deriving DecidableEq, Repr

/-- A task scheduled with `asyncio.create_task` by
`RealtimeHandler.process_real_time_data`. -/
inductive RTask where
  | saveHash (t i : String)
  | broadcast
  | typeHandler (t i : String)
deriving DecidableEq, Repr

namespace RealtimeHandler

/-- Data-kind codes having a registered per-kind handler
(`type_handlers`, source lines 19–26). -/
def typeHandlers : List String := ["00", "02", "04", "0B", "0D"]

/-- Parameter count of `db.redis_client.save_hash_data`, defined as
`def save_hash_data(hash_name, key, value)` (redis_client.py line 86). -/
def save_hash_data_paramCount : Nat := 3

/-- Positional-argument count of the call
`save_hash_data(self.redis_client, type_code, item_code, values)` at
realtime_handler.py line 65. -/
def save_hash_data_callArgCount : Nat := 4

/-- Python call semantics for the cache-write task: a call whose
positional-argument count differs from the callee's parameter count
raises `TypeError` while the arguments of `asyncio.create_task` are
being evaluated, before any task exists. -/
def mkSaveHashTask (t i : String) : PyOut RTask :=
  if save_hash_data_callArgCount = save_hash_data_paramCount then
    PyOut.ok (RTask.saveHash t i)
  else
    PyOut.exn PyErr.typeError

/-- The cache-write loop of `process_real_time_data` (source lines
59–65): one save task per data element; an exception aborts the loop,
and only the tasks already created keep running. -/
def buildSaveTasks : List RItem → List RTask → PyOut (List RTask) × List RTask
  | [], acc => (PyOut.ok acc, acc)
  | d :: rest, acc =>
      match mkSaveHashTask d.type d.item with
      | PyOut.ok t => buildSaveTasks rest (acc ++ [t])
      | PyOut.exn e => (PyOut.exn e, acc)

/-- `RealtimeHandler.process_real_time_data` (source lines 50–87),
returning the tasks that actually run and whether the outer `except`
caught an exception.  When a cache client is available the save loop
runs first; if it raises, the broadcast task and the per-kind handler
tasks are never created, and the outer handler swallows the error.
Otherwise the broadcast task is created, then one handler task per data
element whose kind has a registered handler, and
`asyncio.gather(..., return_exceptions=True)` runs them all with
per-task failure isolation. -/
def process_real_time_data (redisAvailable : Bool) (data : List RItem) :
    List RTask × Bool :=
  match (if redisAvailable then buildSaveTasks data [] else (PyOut.ok [], [])) with
  | (PyOut.exn _, created) => (created, true)
  | (PyOut.ok tasks, _) =>
      (tasks ++ [RTask.broadcast] ++
        data.filterMap
          (fun d =>
            if typeHandlers.contains d.type then some (RTask.typeHandler d.type d.item)
            else none),
       false)

end RealtimeHandler

/-- C8: evaluation of the code at the claim's scenario.  With the cache
client available and a single-element `REAL` frame, building the
cache-write task raises `TypeError` — `save_hash_data` is called with 4
positional arguments but defined with 3 — before the broadcast task is
created, so the failing cache write does prevent the fan-out (no task at
all runs and the exception is swallowed).  Only when no cache client is
available does the broadcast happen. -/
theorem C8_cache_write_aborts_fanout :
    RTask.broadcast ∉
      (RealtimeHandler.process_real_time_data true [{ type := "0D", item := "005930" }]).1 ∧
    (RealtimeHandler.process_real_time_data true [{ type := "0D", item := "005930" }]).1 = [] ∧
    (RealtimeHandler.process_real_time_data true [{ type := "0D", item := "005930" }]).2 = true ∧
    RTask.broadcast ∈
      (RealtimeHandler.process_real_time_data false [{ type := "0D", item := "005930" }]).1 := by
  refine ⟨by decide, rfl, rfl, by decide⟩

/-- One entry of `ConnectionManager.active_connections`: the client's
channel (identified by a number standing for the websocket object) and
the groups recorded for it at connect time. -/
structure Conn where
  ws : Nat
  groups : List String
deriving DecidableEq, Repr

/-- The mutable state of `core/websocket.py`'s `ConnectionManager`. -/
structure ConnState where
  active_connections : List Conn
  client_groups : List (String × List Nat)
deriving DecidableEq, Repr

/-- The invariant `ConnectionManager.connect` maintains: channel ids in
the registry are distinct, group keys are distinct, each group's member
list has no duplicates, and every member of a group's list is an active
connection that recorded that group. -/
abbrev cmInv (st : ConnState) : Prop :=
  (st.active_connections.map Conn.ws).Nodup ∧
  (st.client_groups.map Prod.fst).Nodup ∧
  ∀ p ∈ st.client_groups, p.2.Nodup ∧
    ∀ w ∈ p.2, ∃ c ∈ st.active_connections, c.ws = w ∧ p.1 ∈ c.groups

namespace ConnectionManager

/-- One iteration of `disconnect`'s cleanup loop (source lines 50–55):
if the group exists and holds the channel, remove it, deleting the group
once its member list is empty. -/
def removeWsFromGroup (ws : Nat) (cg : List (String × List Nat)) (g : String) :
    List (String × List Nat) :=
  match dget cg g with
  | none => cg
  | some lst =>
      if lst.contains ws then
        let lst' := lst.erase ws
        if lst'.isEmpty then derase cg g else dset cg g lst'
      else cg

/-- `ConnectionManager.disconnect` (source lines 43–59): find the
channel's connection entry, remove the channel from each group the entry
recorded, and remove the entry from the registry; a channel with no
entry is ignored. -/
def disconnect (ws : Nat) (st : ConnState) : ConnState :=
  match st.active_connections.find? (fun c => c.ws == ws) with
  | none => st
  | some conn =>
      { active_connections := st.active_connections.eraseP (fun c => c.ws == ws),
        client_groups := conn.groups.foldl (removeWsFromGroup ws) st.client_groups }

/-- `ConnectionManager.broadcast_to_group` (source lines 87–106): an
unknown group is a no-op; otherwise the message is sent to each member
of that group's list in order — `fail w` tells whether the send to
channel `w` raises — failed channels are collected, and each one is
`disconnect`ed after the loop.  The returned list holds the channels
whose send succeeded. -/
def broadcast_to_group (fail : Nat → Bool) (group : String) (st : ConnState) :
    List Nat × ConnState :=
  match dget st.client_groups group with
  | none => ([], st)
  | some members =>
      ((members.filter fun w => !fail w),
       (members.filter fail).foldl (fun st w => disconnect w st) st)

/-- `ConnectionManager.broadcast` (source lines 68–85): the message is
sent to every active connection's channel in registry order — `fail w`
tells whether the send to channel `w` raises — failed channels are
collected, and each one is `disconnect`ed after the loop.  The returned
list holds the channels whose send succeeded. -/
def broadcast (fail : Nat → Bool) (st : ConnState) : List Nat × ConnState :=
  (((st.active_connections.map Conn.ws).filter fun w => !fail w),
   ((st.active_connections.map Conn.ws).filter fail).foldl
     (fun st w => disconnect w st) st)

end ConnectionManager

theorem dget_none_not_mem {α : Type} {d : List (String × α)} {k : String}
    (h : dget d k = none) (v : α) : (k, v) ∉ d := by
  induction d with
  | nil => simp
  | cons q t ih =>
    obtain ⟨k₀, v₀⟩ := q
    by_cases h₀ : k₀ = k
    · simp [dget, h₀] at h
    · simp only [dget, h₀, if_false] at h
      intro hm
      rcases List.mem_cons.mp hm with hm | hm
      · exact h₀ (congrArg Prod.fst hm).symm
      · exact ih h hm

theorem dget_of_mem_keysNodup {α : Type} {d : List (String × α)}
    (hnd : (d.map Prod.fst).Nodup) {p : String × α} (hp : p ∈ d) :
    dget d p.1 = some p.2 := by
  induction d with
  | nil => simp at hp
  | cons q t ih =>
    obtain ⟨k₀, v₀⟩ := q
    rcases List.mem_cons.mp hp with hp | hp
    · subst hp
      simp [dget]
    · have hk : k₀ ≠ p.1 := by
        intro hk
        have : p.1 ∈ t.map Prod.fst := List.mem_map_of_mem Prod.fst hp
        rw [← hk] at this
        exact (List.nodup_cons.mp (by simpa using hnd)).1 this
      simp only [dget, hk, if_false]
      exact ih (List.nodup_cons.mp (by simpa using hnd)).2 hp

theorem mem_dset_key_eq {α : Type} {d : List (String × α)}
    (hnd : (d.map Prod.fst).Nodup) {k : String} {v : α} {p : String × α}
    (hp : p ∈ dset d k v) (hk : p.1 = k) : p = (k, v) := by
  induction d with
  | nil =>
    simpa [dset] using hp
  | cons q t ih =>
    obtain ⟨k₀, v₀⟩ := q
    by_cases h₀ : k₀ = k
    · simp only [dset, h₀, if_true] at hp
      rcases List.mem_cons.mp hp with hp | hp
      · exact hp
      · exfalso
        have : p.1 ∈ t.map Prod.fst := List.mem_map_of_mem Prod.fst hp
        rw [hk, ← h₀] at this
        exact (List.nodup_cons.mp (by simpa using hnd)).1 this
    · simp only [dset, h₀, if_false] at hp
      rcases List.mem_cons.mp hp with hp | hp
      · exfalso
        subst hp
        exact h₀ hk
      · exact ih (List.nodup_cons.mp (by simpa using hnd)).2 hp

theorem mem_derase_key_ne {α : Type} {d : List (String × α)} {k : String}
    {p : String × α} (hp : p ∈ derase d k) : p.1 ≠ k := by
  have := List.of_mem_filter hp
  simpa [bne_iff_ne] using this

theorem keys_dset_of_dget {α : Type} {d : List (String × α)} {k : String}
    {lst : α} (h : dget d k = some lst) (v : α) :
    (dset d k v).map Prod.fst = d.map Prod.fst := by
  induction d with
  | nil => simp [dget] at h
  | cons q t ih =>
    obtain ⟨k₀, v₀⟩ := q
    by_cases h₀ : k₀ = k
    · simp [dset, h₀]
    · simp only [dget, h₀, if_false] at h
      simp [dset, h₀, ih h]

theorem keysNodup_derase {α : Type} {d : List (String × α)}
    (hnd : (d.map Prod.fst).Nodup) (k : String) :
    ((derase d k).map Prod.fst).Nodup :=
  hnd.sublist ((List.filter_sublist d).map Prod.fst)

theorem mem_eraseP_of_neg {α : Type} {p : α → Bool} :
    ∀ {l : List α} {a : α}, a ∈ l → p a = false → a ∈ l.eraseP p := by
  intro l
  induction l with
  | nil => intro a ha _; simp at ha
  | cons b t ih =>
    intro a ha hpa
    rw [List.eraseP_cons]
    rcases List.mem_cons.mp ha with ha | ha
    · subst ha
      simp [hpa]
    · cases hpb : p b
      · simpa [hpb] using Or.inr (ih ha hpa)
      · simpa [hpb] using ha

theorem eraseP_ws_ne (w : Nat) :
    ∀ (l : List Conn), (l.map Conn.ws).Nodup →
      ∀ c ∈ l.eraseP (fun c => c.ws == w), c ∈ l ∧ c.ws ≠ w := by
  intro l
  induction l with
  | nil => intro _ c hc; simp [List.eraseP] at hc
  | cons a t ih =>
    intro hnd c hc
    rw [List.eraseP_cons] at hc
    by_cases ha : a.ws = w
    · simp only [ha, beq_self_eq_true, cond_true] at hc
      refine ⟨List.mem_cons_of_mem _ hc, ?_⟩
      intro hcw
      have hwt : w ∈ t.map Conn.ws := by
        rw [← hcw]
        exact List.mem_map_of_mem Conn.ws hc
      rw [← ha] at hwt
      exact (List.nodup_cons.mp (by simpa using hnd)).1 hwt
    · have hb : (a.ws == w) = false := beq_eq_false_iff_ne.mpr ha
      simp only [hb, cond_false] at hc
      rcases List.mem_cons.mp hc with hc | hc
      · subst hc
        exact ⟨List.mem_cons_self _ _, ha⟩
      · rcases ih (List.nodup_cons.mp (by simpa using hnd)).2 c hc with ⟨h₁, h₂⟩
        exact ⟨List.mem_cons_of_mem _ h₁, h₂⟩

/-- Structural invariant on the group map alone: distinct keys, and each
member list without duplicates. -/
abbrev cgQ (cg : List (String × List Nat)) : Prop :=
  (cg.map Prod.fst).Nodup ∧ ∀ p ∈ cg, p.2.Nodup

theorem rwg_Q {w : Nat} {cg : List (String × List Nat)} {g : String}
    (hq : cgQ cg) : cgQ (ConnectionManager.removeWsFromGroup w cg g) := by
  unfold ConnectionManager.removeWsFromGroup
  cases hdg : dget cg g with
  | none => exact hq
  | some lst =>
    simp only []
    cases hcont : lst.contains w
    · simpa using hq
    · simp only [if_true]
      by_cases he : (lst.erase w).isEmpty
      · rw [if_pos he]
        exact ⟨keysNodup_derase hq.1 g, fun p hp => hq.2 p (mem_derase hp)⟩
      · rw [if_neg he]
        refine ⟨by rw [keys_dset_of_dget hdg]; exact hq.1, fun p hp => ?_⟩
        rcases mem_dset hp with hp | hp
        · subst hp
          exact (hq.2 (g, lst) (dget_mem hdg)).erase w
        · exact hq.2 p hp

theorem rwg_sub {w : Nat} {cg : List (String × List Nat)} {g : String}
    {p : String × List Nat} (hp : p ∈ ConnectionManager.removeWsFromGroup w cg g) :
    ∃ lst, (p.1, lst) ∈ cg ∧ p.2 ⊆ lst := by
  unfold ConnectionManager.removeWsFromGroup at hp
  cases hdg : dget cg g with
  | none =>
    rw [hdg] at hp
    exact ⟨p.2, hp, fun a ha => ha⟩
  | some lst =>
    rw [hdg] at hp
    simp only [] at hp
    cases hcont : lst.contains w
    · rw [hcont] at hp
      simp only [Bool.false_eq_true, if_false] at hp
      exact ⟨p.2, hp, fun a ha => ha⟩
    · rw [hcont] at hp
      simp only [if_true] at hp
      by_cases he : (lst.erase w).isEmpty
      · rw [if_pos he] at hp
        exact ⟨p.2, mem_derase hp, fun a ha => ha⟩
      · rw [if_neg he] at hp
        rcases mem_dset hp with hp | hp
        · subst hp
          exact ⟨lst, dget_mem hdg, (List.erase_sublist w lst).subset⟩
        · exact ⟨p.2, hp, fun a ha => ha⟩

theorem rwg_R {w : Nat} {cg : List (String × List Nat)} {g : String}
    {rest : List String} (hq : cgQ cg)
    (hR : ∀ p ∈ cg, w ∈ p.2 → p.1 ∈ g :: rest) :
    ∀ p ∈ ConnectionManager.removeWsFromGroup w cg g, w ∈ p.2 → p.1 ∈ rest := by
  intro p hp hw
  unfold ConnectionManager.removeWsFromGroup at hp
  cases hdg : dget cg g with
  | none =>
    rw [hdg] at hp
    rcases List.mem_cons.mp (hR p hp hw) with hk | hk
    · exfalso
      have : (p.1, p.2) ∈ cg := hp
      rw [hk] at this
      exact dget_none_not_mem hdg p.2 this
    · exact hk
  | some lst =>
    rw [hdg] at hp
    simp only [] at hp
    cases hcont : lst.contains w
    · rw [hcont] at hp
      simp only [Bool.false_eq_true, if_false] at hp
      rcases List.mem_cons.mp (hR p hp hw) with hk | hk
      · exfalso
        have hdp : dget cg p.1 = some p.2 := dget_of_mem_keysNodup hq.1 hp
        rw [hk, hdg] at hdp
        have : w ∈ lst := (Option.some.injEq .. ▸ hdp) ▸ hw
        simp [this] at hcont
      · exact hk
    · rw [hcont] at hp
      simp only [if_true] at hp
      by_cases he : (lst.erase w).isEmpty
      · rw [if_pos he] at hp
        rcases List.mem_cons.mp (hR p (mem_derase hp) hw) with hk | hk
        · exact absurd hk (mem_derase_key_ne hp)
        · exact hk
      · rw [if_neg he] at hp
        by_cases hk : p.1 = g
        · exfalso
          have hpe : p = (g, lst.erase w) := mem_dset_key_eq hq.1 hp hk
          rw [hpe] at hw
          exact (hq.2 (g, lst) (dget_mem hdg)).not_mem_erase hw
        · rcases mem_dset hp with hpe | hpm
          · exact absurd (congrArg Prod.fst hpe) hk
          · rcases List.mem_cons.mp (hR p hpm hw) with hk' | hk'
            · exact absurd hk' hk
            · exact hk'

theorem foldl_rwg_Q {w : Nat} :
    ∀ (gs : List String) {cg : List (String × List Nat)}, cgQ cg →
      cgQ (gs.foldl (ConnectionManager.removeWsFromGroup w) cg) := by
  intro gs
  induction gs with
  | nil => intro cg hq; exact hq
  | cons g rest ih => intro cg hq; exact ih (rwg_Q hq)

theorem foldl_rwg_sub {w : Nat} :
    ∀ (gs : List String) {cg : List (String × List Nat)} {p : String × List Nat},
      p ∈ gs.foldl (ConnectionManager.removeWsFromGroup w) cg →
      ∃ lst, (p.1, lst) ∈ cg ∧ p.2 ⊆ lst := by
  intro gs
  induction gs with
  | nil => intro cg p hp; exact ⟨p.2, hp, fun a ha => ha⟩
  | cons g rest ih =>
    intro cg p hp
    rcases ih hp with ⟨lst₁, hl₁, hs₁⟩
    rcases rwg_sub hl₁ with ⟨lst₀, hl₀, hs₀⟩
    exact ⟨lst₀, hl₀, fun a ha => hs₀ (hs₁ ha)⟩

theorem foldl_rwg_gone {w : Nat} :
    ∀ (gs : List String) {cg : List (String × List Nat)}, cgQ cg →
      (∀ p ∈ cg, w ∈ p.2 → p.1 ∈ gs) →
      ∀ p ∈ gs.foldl (ConnectionManager.removeWsFromGroup w) cg, w ∉ p.2 := by
  intro gs
  induction gs with
  | nil =>
    intro cg _ hR p hp hw
    exact absurd (hR p hp hw) (List.not_mem_nil p.1)
  | cons g rest ih =>
    intro cg hq hR
    exact ih (rwg_Q hq) (rwg_R hq hR)

/-- The channel `w` appears in no group list and in no active-connection
entry of the state. -/
abbrev wsGone (w : Nat) (st : ConnState) : Prop :=
  (∀ p ∈ st.client_groups, w ∉ p.2) ∧ ∀ c ∈ st.active_connections, c.ws ≠ w

theorem disconnect_gone {st : ConnState} (hinv : cmInv st) (w : Nat) :
    wsGone w (ConnectionManager.disconnect w st) := by
  cases hf : st.active_connections.find? (fun c => c.ws == w) with
  | none =>
    have hd : ConnectionManager.disconnect w st = st := by
      simp [ConnectionManager.disconnect, hf]
    rw [hd]
    constructor
    · intro p hp hw
      rcases (hinv.2.2 p hp).2 w hw with ⟨c, hc, hcw, _⟩
      have := List.find?_eq_none.mp hf c hc
      simp [hcw] at this
    · intro c hc
      have := List.find?_eq_none.mp hf c hc
      simpa using this
  | some conn =>
    have hconn_mem : conn ∈ st.active_connections := List.mem_of_find?_eq_some hf
    have hconn_ws : conn.ws = w := by simpa using List.find?_some hf
    have hd : ConnectionManager.disconnect w st =
        { active_connections := st.active_connections.eraseP (fun c => c.ws == w),
          client_groups :=
            conn.groups.foldl (ConnectionManager.removeWsFromGroup w) st.client_groups } := by
      simp [ConnectionManager.disconnect, hf]
    rw [hd]
    constructor
    · refine foldl_rwg_gone conn.groups ⟨hinv.2.1, fun q hq => (hinv.2.2 q hq).1⟩ ?_
      intro q hq hwq
      rcases (hinv.2.2 q hq).2 w hwq with ⟨c, hc, hcw, hg⟩
      have hce : c = conn :=
        List.inj_on_of_nodup_map hinv.1 hc hconn_mem (by rw [hcw, hconn_ws])
      rw [← hce]
      exact hg
    · intro c hc
      exact (eraseP_ws_ne w st.active_connections hinv.1 c hc).2

theorem disconnect_shrink (v : Nat) (st : ConnState) :
    (∀ p ∈ (ConnectionManager.disconnect v st).client_groups,
        ∃ lst, (p.1, lst) ∈ st.client_groups ∧ p.2 ⊆ lst) ∧
    (∀ c ∈ (ConnectionManager.disconnect v st).active_connections,
        c ∈ st.active_connections) := by
  cases hf : st.active_connections.find? (fun c => c.ws == v) with
  | none =>
    have hd : ConnectionManager.disconnect v st = st := by
      simp [ConnectionManager.disconnect, hf]
    rw [hd]
    exact ⟨fun p hp => ⟨p.2, hp, fun a ha => ha⟩, fun c hc => hc⟩
  | some conn =>
    have hd : ConnectionManager.disconnect v st =
        { active_connections := st.active_connections.eraseP (fun c => c.ws == v),
          client_groups :=
            conn.groups.foldl (ConnectionManager.removeWsFromGroup v) st.client_groups } := by
      simp [ConnectionManager.disconnect, hf]
    rw [hd]
    exact ⟨fun p hp => foldl_rwg_sub conn.groups hp,
           fun c hc => (List.eraseP_sublist _).subset hc⟩

theorem wsGone_disconnect_mono {w : Nat} {st : ConnState} (h : wsGone w st)
    (v : Nat) : wsGone w (ConnectionManager.disconnect v st) := by
  refine ⟨fun p hp hw => ?_, fun c hc => ?_⟩
  · rcases (disconnect_shrink v st).1 p hp with ⟨lst, hl, hsub⟩
    exact h.1 (p.1, lst) hl (hsub hw)
  · exact h.2 c ((disconnect_shrink v st).2 c hc)

theorem disconnect_inv {st : ConnState} (hinv : cmInv st) (v : Nat) :
    cmInv (ConnectionManager.disconnect v st) := by
  have hgone := disconnect_gone hinv v
  cases hf : st.active_connections.find? (fun c => c.ws == v) with
  | none =>
    have hd : ConnectionManager.disconnect v st = st := by
      simp [ConnectionManager.disconnect, hf]
    rw [hd]
    exact hinv
  | some conn =>
    have hd : ConnectionManager.disconnect v st =
        { active_connections := st.active_connections.eraseP (fun c => c.ws == v),
          client_groups :=
            conn.groups.foldl (ConnectionManager.removeWsFromGroup v) st.client_groups } := by
      simp [ConnectionManager.disconnect, hf]
    rw [hd] at hgone ⊢
    refine ⟨hinv.1.sublist ((List.eraseP_sublist _).map Conn.ws),
      (foldl_rwg_Q conn.groups ⟨hinv.2.1, fun q hq => (hinv.2.2 q hq).1⟩).1,
      fun p hp => ⟨(foldl_rwg_Q conn.groups
        ⟨hinv.2.1, fun q hq => (hinv.2.2 q hq).1⟩).2 p hp, ?_⟩⟩
    intro u hu
    rcases foldl_rwg_sub conn.groups hp with ⟨lst, hl, hsub⟩
    rcases (hinv.2.2 (p.1, lst) hl).2 u (hsub hu) with ⟨c, hc, hcw, hg⟩
    by_cases huv : u = v
    · exact absurd (huv ▸ hu) (hgone.1 p hp)
    · refine ⟨c, mem_eraseP_of_neg hc ?_, hcw, hg⟩
      exact beq_eq_false_iff_ne.mpr (by rw [hcw]; exact huv)

theorem wsGone_foldl_mono {w : Nat} :
    ∀ (gs : List Nat) (st : ConnState), wsGone w st →
      wsGone w (gs.foldl (fun st v => ConnectionManager.disconnect v st) st) := by
  intro gs
  induction gs with
  | nil => intro st h; exact h
  | cons a t ih => intro st h; exact ih _ (wsGone_disconnect_mono h a)

theorem wsGone_foldl_disconnect :
    ∀ (ds : List Nat) (st : ConnState), cmInv st →
      ∀ w ∈ ds, wsGone w (ds.foldl (fun st v => ConnectionManager.disconnect v st) st) := by
  intro ds
  induction ds with
  | nil => intro st _ w hw; exact absurd hw (List.not_mem_nil w)
  | cons d rest ih =>
    intro st hinv w hw
    rcases List.mem_cons.mp hw with hw | hw
    · subst hw
      exact wsGone_foldl_mono rest _ (disconnect_gone hinv w)
    · exact ih (ConnectionManager.disconnect d st) (disconnect_inv hinv d) w hw

/-- C9: a group broadcast attempts delivery exactly to the listeners
that joined that group — delivering to precisely those whose send does
not fail, an unknown group being a no-op — a broadcast to all attempts
delivery to every active listener, delivering to precisely those whose
send does not fail; and in either form every listener whose send fails
is afterwards absent from every group's member list and from the
connection registry, while every other targeted listener still receives
the message. -/
theorem C9_broadcast_isolation (fail : Nat → Bool) (group : String)
    (st : ConnState) (hinv : cmInv st) :
    (dget st.client_groups group = none →
      (ConnectionManager.broadcast_to_group fail group st).1 = [] ∧
      (ConnectionManager.broadcast_to_group fail group st).2 = st) ∧
    (∀ members, dget st.client_groups group = some members →
      (ConnectionManager.broadcast_to_group fail group st).1 =
        members.filter (fun w => !fail w) ∧
      (∀ w ∈ members, fail w = true →
        (∀ p ∈ (ConnectionManager.broadcast_to_group fail group st).2.client_groups,
            w ∉ p.2) ∧
        (∀ c ∈ (ConnectionManager.broadcast_to_group fail group st).2.active_connections,
            c.ws ≠ w))) ∧
    ((ConnectionManager.broadcast fail st).1 =
        (st.active_connections.map Conn.ws).filter (fun w => !fail w)) ∧
    (∀ w ∈ st.active_connections.map Conn.ws, fail w = true →
      (∀ p ∈ (ConnectionManager.broadcast fail st).2.client_groups, w ∉ p.2) ∧
      (∀ c ∈ (ConnectionManager.broadcast fail st).2.active_connections, c.ws ≠ w)) := by
  refine ⟨?_, ?_, ?_, ?_⟩
  · intro hn
    constructor <;> simp [ConnectionManager.broadcast_to_group, hn]
  · intro members hm
    constructor
    · simp [ConnectionManager.broadcast_to_group, hm]
    · intro w hw hfw
      have hb : (ConnectionManager.broadcast_to_group fail group st).2 =
          (members.filter fail).foldl
            (fun st v => ConnectionManager.disconnect v st) st := by
        simp [ConnectionManager.broadcast_to_group, hm]
      rw [hb]
      exact wsGone_foldl_disconnect (members.filter fail) st hinv w
        (List.mem_filter.mpr ⟨hw, hfw⟩)
  · rfl
  · intro w hw hfw
    have hb : (ConnectionManager.broadcast fail st).2 =
        ((st.active_connections.map Conn.ws).filter fail).foldl
          (fun st v => ConnectionManager.disconnect v st) st := rfl
    rw [hb]
    exact wsGone_foldl_disconnect
      ((st.active_connections.map Conn.ws).filter fail) st hinv w
      (List.mem_filter.mpr ⟨hw, hfw⟩)

/-- A registry with three listeners: channels 1 and 2 in group "1",
channel 3 in group "2". -/
def st9 : ConnState :=
  { active_connections :=
      [{ ws := 1, groups := ["1"] }, { ws := 2, groups := ["1"] },
       { ws := 3, groups := ["2"] }],
    client_groups := [("1", [1, 2]), ("2", [3])] }

/-- Witness for `C9_broadcast_isolation`: broadcasting to group "1"
with channel 1 failing delivers to channel 2 only, a broadcast to all
with channel 1 failing delivers to channels 2 and 3, and either form
removes channel 1 everywhere. -/
theorem C9_broadcast_isolation_witness :
    cmInv st9 ∧
    (ConnectionManager.broadcast_to_group (fun w => w == 1) "1" st9).1 = [2] ∧
    (∀ p ∈ (ConnectionManager.broadcast_to_group (fun w => w == 1) "1" st9).2.client_groups,
        1 ∉ p.2) ∧
    (∀ c ∈ (ConnectionManager.broadcast_to_group (fun w => w == 1) "1" st9).2.active_connections,
        c.ws ≠ 1) ∧
    (ConnectionManager.broadcast (fun w => w == 1) st9).1 = [2, 3] ∧
    (∀ p ∈ (ConnectionManager.broadcast (fun w => w == 1) st9).2.client_groups,
        1 ∉ p.2) ∧
    (∀ c ∈ (ConnectionManager.broadcast (fun w => w == 1) st9).2.active_connections,
        c.ws ≠ 1) :=
  ⟨by decide,
   ((C9_broadcast_isolation (fun w => w == 1) "1" st9 (by decide)).2.1 [1, 2] rfl).1,
   (((C9_broadcast_isolation (fun w => w == 1) "1" st9 (by decide)).2.1 [1, 2] rfl).2
      1 (by decide) rfl).1,
   (((C9_broadcast_isolation (fun w => w == 1) "1" st9 (by decide)).2.1 [1, 2] rfl).2
      1 (by decide) rfl).2,
   (C9_broadcast_isolation (fun w => w == 1) "1" st9 (by decide)).2.2.1,
   ((C9_broadcast_isolation (fun w => w == 1) "1" st9 (by decide)).2.2.2
      1 (by decide) rfl).1,
   ((C9_broadcast_isolation (fun w => w == 1) "1" st9 (by decide)).2.2.2
      1 (by decide) rfl).2⟩
